import Mathlib

/-!
Shallow embedding of the privategpt ingestion-and-approval pipeline:
`src/ingest.py` (loader registry, batch loading, chunking dispatch,
vectorstore existence check, main ingestion flow) and
`src/private_gpt/users/api/v1/routers/documents.py` (the maker-checker
`verify_documents` endpoint), together with theorems settling the
specification claims about them.
-/

namespace PrivateGPT

/-! ## Documents and loader registry (`src/ingest.py`) -/

/-- A loaded document: extracted text plus its source path, mirroring
langchain's `Document` with `page_content` and `metadata['source']`
(every registered loader records the file path as the source). -/
structure Document where
  page_content : String
  source : String
deriving DecidableEq, Repr

/-- The loader classes named in `LOADER_MAPPING` in `ingest.py`. -/
inductive LoaderName
  | CSVLoader
  | UnstructuredWordDocumentLoader
  | EverNoteLoader
  | MyElmLoader
  | UnstructuredEPubLoader
  | UnstructuredHTMLLoader
  | UnstructuredMarkdownLoader
  | UnstructuredODTLoader
  | PDFMinerLoader
  | UnstructuredPowerPointLoader
  | TextLoader
deriving DecidableEq, Repr

/-- The extension-to-loader table of `ingest.py` (`LOADER_MAPPING`),
keys exactly as they appear in the source: lower-case, dot-prefixed. -/
def LOADER_MAPPING : List (String × LoaderName) :=
  [(".csv", .CSVLoader),
   (".doc", .UnstructuredWordDocumentLoader),
   (".docx", .UnstructuredWordDocumentLoader),
   (".enex", .EverNoteLoader),
   (".eml", .MyElmLoader),
   (".epub", .UnstructuredEPubLoader),
   (".html", .UnstructuredHTMLLoader),
   (".md", .UnstructuredMarkdownLoader),
   (".odt", .UnstructuredODTLoader),
   (".pdf", .PDFMinerLoader),
   (".ppt", .UnstructuredPowerPointLoader),
   (".pptx", .UnstructuredPowerPointLoader),
   (".txt", .TextLoader)]

/-- Literal (case-sensitive) lookup of an extension in `LOADER_MAPPING`,
as Python's `ext in LOADER_MAPPING` / `LOADER_MAPPING[ext]` dict access. -/
def lookupLoader (ext : String) : Option LoaderName :=
  (LOADER_MAPPING.find? (fun kv => kv.fst == ext)).map Prod.snd

/-- The characters of a list that follow its last `'.'`, or `none` when
the list has no `'.'` at all. -/
def afterLastDot : List Char → Option (List Char)
  | [] => none
  | c :: cs =>
    match afterLastDot cs with
    | some r => some r
    | none => if c = '.' then some cs else none

/-- Python's `"." + file_path.rsplit(".", 1)[-1]` from
`load_single_document`: the suffix after the last dot with a dot
prepended; when the path has no dot, `rsplit` returns the whole path,
so the result is `"."` prepended to the whole path. -/
def pyExt (path : String) : String :=
  match afterLastDot path.data with
  | some r => String.mk ('.' :: r)
  | none => String.mk ('.' :: path.data)

/-- The behaviour of a loader class: `loader.load()` either raises
(an error message) or returns the list of extracted page contents.
The loaders are external langchain classes; their behaviour is a
parameter of the embedding. -/
def LoadFn : Type := LoaderName → String → Except String (List String)

/-- Errors raised by `load_single_document`. -/
inductive IngestError
  | UnsupportedExtension (ext : String)
  | LoadFailure (path msg : String)
  | EmptyLoad (path : String)
deriving DecidableEq, Repr

/-- `load_single_document` from `ingest.py`: compute the extension,
select the mapped loader when one is registered and return the first
element of `loader.load()`; otherwise raise
`ValueError("Unsupported file extension ...")`. An empty `load()`
result makes `[0]` raise (`EmptyLoad`). Every registered loader stamps
the file path as the document's source metadata. -/
def load_single_document (loadFn : LoadFn) (path : String) :
    Except IngestError Document :=
  match lookupLoader (pyExt path) with
  | some L =>
    match loadFn L path with
    | .error msg => .error (.LoadFailure path msg)
    | .ok [] => .error (.EmptyLoad path)
    | .ok (c :: _) => .ok ⟨c, path⟩
  | none => .error (.UnsupportedExtension (pyExt path))

/-- The worker-pool collection loop of `load_documents`: results of
`load_single_document` are accumulated; an exception from any file
propagates out of the iteration and aborts the whole batch (there is
no try/except around the pool loop in the source). -/
def loadAll (loadFn : LoadFn) : List String → Except IngestError (List Document)
  | [] => .ok []
  | p :: ps =>
    match load_single_document loadFn p with
    | .error e => .error e
    | .ok d =>
      match loadAll loadFn ps with
      | .error e => .error e
      | .ok ds => .ok (d :: ds)

/-- `load_documents` from `ingest.py`: drop every candidate path that
occurs in `ignored_files` (Python list membership, string equality),
then load the remaining files through the pool. `allFiles` stands for
the glob results over the source directory. -/
def load_documents (loadFn : LoadFn) (allFiles ignored_files : List String) :
    Except IngestError (List Document) :=
  let filtered_files := allFiles.filter (fun p => !(ignored_files.contains p))
  loadAll loadFn filtered_files

/-! ## Chunker

The splitter used at `ingest.py` lines 126-128 is langchain's
`RecursiveCharacterTextSplitter`, external library code. It is modelled
here from the spec. -/

/-- Arbitrary-width chunking with overlap: windows of `size` characters
whose starts advance by `step = size - overlap`; the fuel argument
bounds the recursion by the text length. -/
def widthChunksAux (size step : Nat) : Nat → List Char → List (List Char)
  | 0, cs => [cs]
  | fuel + 1, cs =>
    if cs.length ≤ size then [cs]
    else cs.take size :: widthChunksAux size step fuel (cs.drop step)

/-- Recursive boundary search over a list of separators: a text within
`size` stays whole; otherwise split on the first separator that occurs,
recursing with the remaining separators, and fall back to
arbitrary-width chunking when no separator is left. -/
def recSplit (size step : Nat) : List String → String → List String
  | [], text =>
    if text.length ≤ size then [text]
    else (widthChunksAux size (max 1 step) text.length text.data).map String.mk
  | sep :: rest, text =>
    if text.length ≤ size then [text]
    else
      match text.splitOn sep with
      | [] => [text]
      | [_] => recSplit size step rest text
      | p :: q :: r => ((p :: q :: r).map (fun piece => recSplit size step rest piece)).flatten

/-- Modelled from the spec: the Chunker (spec section 4.2) is langchain's
`RecursiveCharacterTextSplitter`, whose code is not part of this
repository. Splitting tries paragraph breaks, then line breaks, then
arbitrary width, keeping pieces within `chunkSize` with adjacent chunks
overlapping by `chunkOverlap`. -/
def splitText (chunkSize chunkOverlap : Nat) (text : String) : List String :=
  recSplit chunkSize (chunkSize - chunkOverlap) ["\n\n", "\n"] text

/-- `chunk_size = 500` from `ingest.py`. -/
def chunk_size : Nat := 500

/-- `chunk_overlap = 50` from `ingest.py`. -/
def chunk_overlap : Nat := 50

/-- `text_splitter.split_documents(documents)`: chunk every document's
text, each chunk inheriting its parent's source metadata. -/
def split_documents (docs : List Document) : List Document :=
  docs.flatMap (fun d =>
    (splitText chunk_size chunk_overlap d.page_content).map (fun t => ⟨t, d.source⟩))

/-! ## process_documents and main (`src/ingest.py`) -/

/-- Outcome of a run of `process_documents` (and of the main flow):
`exited c` models Python's `exit(c)` (process termination), `failed e`
an uncaught exception, `ok v` a normal return. -/
inductive ProcOutcome (α : Type)
  | exited (code : Nat)
  | failed (e : IngestError)
  | ok (val : α)
deriving DecidableEq, Repr

/-- `process_documents` from `ingest.py`: load the non-ignored files;
when no document was loaded, print an informational message and call
`exit(0)`; otherwise split the documents into chunks and return them. -/
def process_documents (loadFn : LoadFn) (allFiles ignored_files : List String) :
    ProcOutcome (List Document) :=
  match load_documents loadFn allFiles ignored_files with
  | .error e => .failed e
  | .ok documents =>
    if documents.isEmpty then .exited 0
    else .ok (split_documents documents)

/-- The appending branch of `main` (vectorstore exists): the ignore
list is the source path of every record stored in the collection
metadata, and the chunks produced by `process_documents` are appended
via `db.add_documents`. The index is modelled as the list of its
stored records (each carrying its source path). -/
def main_existing (loadFn : LoadFn) (allFiles : List String) (index : List Document) :
    List Document × ProcOutcome Unit :=
  match process_documents loadFn allFiles (index.map Document.source) with
  | .exited c => (index, .exited c)
  | .failed e => (index, .failed e)
  | .ok texts => (index ++ texts, .ok ())

/-- The fresh branch of `main` (no vectorstore): `process_documents`
runs with an empty ignore list and `Chroma.from_documents` builds the
index from the resulting chunks. -/
def main_fresh (loadFn : LoadFn) (allFiles : List String) :
    List Document × ProcOutcome Unit :=
  match process_documents loadFn allFiles [] with
  | .exited c => ([], .exited c)
  | .failed e => ([], .failed e)
  | .ok texts => (texts, .ok ())

/-! ## does_vectorstore_exist (`src/ingest.py`) -/

/-- The persist directory as seen by `does_vectorstore_exist`: whether
the `index` subdirectory and the two parquet files exist, and the names
of the files inside `index/`. -/
structure PersistDir where
  hasIndexDir : Bool
  hasCollections : Bool
  hasEmbeddings : Bool
  indexFiles : List String
deriving DecidableEq, Repr

/-- A file counted by the two globs `index/*.bin` and `index/*.pkl`. -/
def isIndexArtifact (name : String) : Bool :=
  (".bin".data.isSuffixOf name.data) || (".pkl".data.isSuffixOf name.data)

/-- `does_vectorstore_exist` from `ingest.py`: the `index` subdirectory
and both parquet files must exist and the number of `.bin`/`.pkl`
artifacts must be strictly greater than 3. -/
def does_vectorstore_exist (d : PersistDir) : Bool :=
  if d.hasIndexDir then
    if d.hasCollections && d.hasEmbeddings then
      decide (3 < (d.indexFiles.filter isIndexArtifact).length)
    else false
  else false

/-- The existence check as the specification words it: valid when the
index subdirectory and both artifact files exist and at least 3
persisted index artifacts are present. Stated for comparison with
`does_vectorstore_exist`. -/
def vectorstore_exists_spec (d : PersistDir) : Prop :=
  d.hasIndexDir = true ∧ d.hasCollections = true ∧ d.hasEmbeddings = true ∧
  3 ≤ (d.indexFiles.filter isIndexArtifact).length

/-! ## Maker-checker verification
(`src/private_gpt/users/api/v1/routers/documents.py`, `verify_documents`) -/

/-- `MakerCheckerStatus` of a `DocumentRecord`. -/
inductive MakerCheckerStatus
  | PENDING
  | APPROVED
  | REJECTED
deriving DecidableEq, Repr

/-- The metadata record of an uploaded document, with the fields
`verify_documents` reads or writes. Timestamps are abstract naturals. -/
structure DocumentRecord where
  id : Nat
  filename : String
  doc_type_id : Nat
  status : MakerCheckerStatus
  is_enabled : Bool
  verified_by : Option Nat
  verified_at : Option Nat
deriving DecidableEq, Repr

/-- The checker's request (`schemas.DocumentUpdate`). -/
structure CheckerIn where
  id : Nat
  status : MakerCheckerStatus
  is_enabled : Bool
deriving DecidableEq, Repr

/-- `crud.documents.update` with a `DocumentCheckerUpdate` payload:
status, enabled flag, verification timestamp and verifier identity. -/
def applyChecker (d : DocumentRecord) (st : MakerCheckerStatus) (enabled : Bool)
    (verifier now : Nat) : DocumentRecord :=
  { d with status := st, is_enabled := enabled,
           verified_by := some verifier, verified_at := some now }

/-- Server-side state touched by `verify_documents`: the document
records and the set of file names present in the quarantine directory
(`UNCHECKED_DIR`). -/
structure ServerState where
  docs : List DocumentRecord
  unchecked : List String
deriving DecidableEq, Repr

/-- Errors surfaced by `verify_documents`: the 400 for a missing
document, the 400 "Cannot change status to PENDING!" (the spec's
`InvalidTransition`), and the generic 500 produced when a later step
raises (for example a file operation on a missing quarantined file). -/
inductive VerifyError
  | DocumentNotFound
  | InvalidTransition
  | InternalError
deriving DecidableEq, Repr

/-- Side effects of `verify_documents`, in the order they are attempted. -/
inductive Effect
  | recordUpdate (id : Nat) (st : MakerCheckerStatus)
  | ocrDispatch (path : String)
  | bothOcrDispatch (path : String)
  | ingestDispatch (path : String)
  | fileDelete (path : String)
deriving DecidableEq, Repr

/-- The file-system dispatch selected in the APPROVED branch:
`process_ocr` when `doc_type_id == 2`, `process_both_ocr` when
`doc_type_id == 3`, plain `ingest` otherwise. -/
def dispatchEffect (d : DocumentRecord) : Effect :=
  if d.doc_type_id == 2 then .ocrDispatch d.filename
  else if d.doc_type_id == 3 then .bothOcrDispatch d.filename
  else .ingestDispatch d.filename

/-- The behaviour of the external ingestion and OCR subsystems invoked
by the APPROVED branch on an existing quarantined file: the dispatched
call may succeed or itself raise (loading, embedding or persistence can
fail even when the file exists), surfacing as the generic 500. Its
behaviour is a parameter of the embedding. -/
def DispatchFn : Type := Effect → Except VerifyError Unit

/-- `verify_documents`: look the document up by id; on APPROVED commit
the checker update to the record and then dispatch ingestion or OCR on
the quarantined file — the dispatched call's own outcome (success or
failure) is that of the external subsystem; on REJECTED commit the
update and then delete the quarantined file; any other requested
status raises the 400 "Cannot change status to PENDING!" before any
side effect. A file operation on a missing quarantined file raises
after the record update has already been committed, surfacing as the
generic 500. Returns the new state, the trace of effects in the order
attempted, and the outcome. -/
def verify_documents (dispatchFn : DispatchFn) (st : ServerState) (req : CheckerIn)
    (verifier now : Nat) :
    ServerState × List Effect × Except VerifyError Unit :=
  match st.docs.find? (fun d => d.id == req.id) with
  | none => (st, [], .error .DocumentNotFound)
  | some document =>
    match req.status with
    | .APPROVED =>
      let newDocs := st.docs.map (fun d =>
        if d.id == req.id then applyChecker d .APPROVED req.is_enabled verifier now else d)
      let st1 : ServerState := { st with docs := newDocs }
      let trace := [Effect.recordUpdate req.id .APPROVED, dispatchEffect document]
      if st.unchecked.contains document.filename then
        (st1, trace, dispatchFn (dispatchEffect document))
      else
        (st1, trace, .error .InternalError)
    | .REJECTED =>
      let newDocs := st.docs.map (fun d =>
        if d.id == req.id then applyChecker d .REJECTED req.is_enabled verifier now else d)
      let st1 : ServerState := { st with docs := newDocs }
      let trace := [Effect.recordUpdate req.id .REJECTED, Effect.fileDelete document.filename]
      if st.unchecked.contains document.filename then
        ({ st1 with unchecked := st1.unchecked.filter (fun f => f ≠ document.filename) },
         trace, .ok ())
      else
        (st1, trace, .error .InternalError)
    | .PENDING => (st, [], .error .InvalidTransition)

/-! ## Helper lemmas -/

/-- A document returned by `load_single_document` carries its file path
as source metadata. -/
lemma load_single_document_source (loadFn : LoadFn) (p : String) (d : Document)
    (h : load_single_document loadFn p = .ok d) : d.source = p := by
  unfold load_single_document at h
  cases hl : lookupLoader (pyExt p) with
  | none => rw [hl] at h; exact absurd h (by simp)
  | some L =>
    rw [hl] at h
    dsimp only at h
    cases hf : loadFn L p with
    | error msg => rw [hf] at h; exact absurd h (by simp)
    | ok cs =>
      rw [hf] at h
      cases cs with
      | nil => exact absurd h (by simp)
      | cons c rest =>
        have : (⟨c, p⟩ : Document) = d := by simpa using h
        rw [← this]

/-- When the pool loop returns normally, the loaded documents' sources
are exactly the input paths, in order. -/
lemma loadAll_sources (loadFn : LoadFn) :
    ∀ (files : List String) (docs : List Document),
      loadAll loadFn files = .ok docs → docs.map Document.source = files := by
  intro files
  induction files with
  | nil =>
    intro docs h
    simp [loadAll] at h
    simp [← h]
  | cons p ps ih =>
    intro docs h
    unfold loadAll at h
    cases hd : load_single_document loadFn p with
    | error e => rw [hd] at h; exact absurd h (by simp)
    | ok d =>
      rw [hd] at h
      cases ht : loadAll loadFn ps with
      | error e => rw [ht] at h; exact absurd h (by simp)
      | ok ds =>
        rw [ht] at h
        have : d :: ds = docs := by simpa using h
        rw [← this]
        simp [ih ds ht, load_single_document_source loadFn p d hd]

/-- A failing file anywhere in the input list makes the pool loop
raise: the whole batch aborts. -/
lemma loadAll_error_of_mem (loadFn : LoadFn) :
    ∀ (files : List String) (f : String) (e : IngestError),
      f ∈ files → load_single_document loadFn f = .error e →
      ∃ e', loadAll loadFn files = .error e' := by
  intro files
  induction files with
  | nil => intro f e hf _; exact absurd hf (by simp)
  | cons p ps ih =>
    intro f e hf hfail
    unfold loadAll
    rcases List.mem_cons.mp hf with rfl | hmem
    · rw [hfail]; exact ⟨e, rfl⟩
    · cases hd : load_single_document loadFn p with
      | error e₀ => exact ⟨e₀, rfl⟩
      | ok d =>
        obtain ⟨e', he'⟩ := ih f e hmem hfail
        rw [he']
        exact ⟨e', rfl⟩

/-- Arbitrary-width chunking never returns an empty list of chunks. -/
lemma widthChunksAux_ne_nil (size step fuel : Nat) (cs : List Char) :
    widthChunksAux size step fuel cs ≠ [] := by
  cases fuel with
  | zero => simp [widthChunksAux]
  | succ n =>
    unfold widthChunksAux
    split <;> simp

/-- The recursive boundary search never returns an empty chunk list. -/
lemma recSplit_ne_nil (size step : Nat) (seps : List String) (text : String) :
    recSplit size step seps text ≠ [] := by
  induction seps generalizing text with
  | nil =>
    unfold recSplit
    split
    · simp
    · simp [widthChunksAux_ne_nil]
  | cons sep rest ih =>
    unfold recSplit
    split
    · simp
    · cases hs : text.splitOn sep with
      | nil => simp
      | cons p tail =>
        cases tail with
        | nil => exact ih text
        | cons q r =>
          simp only [List.map_cons, List.flatten_cons]
          intro hcontra
          exact ih p (List.append_eq_nil.mp hcontra).1

/-- The chunker never returns an empty chunk list. -/
lemma splitText_ne_nil (cs co : Nat) (t : String) :
    splitText cs co t ≠ [] :=
  recSplit_ne_nil cs (cs - co) ["\n\n", "\n"] t

/-- Every source path of a document survives chunking: the chunks of a
document inherit its source. -/
lemma mem_split_sources (docs : List Document) (p : String)
    (h : p ∈ docs.map Document.source) :
    p ∈ (split_documents docs).map Document.source := by
  induction docs with
  | nil => simp at h
  | cons d rest ih =>
    rw [List.map_cons, List.mem_cons] at h
    simp only [split_documents, List.flatMap_cons, List.map_append, List.mem_append]
    rcases h with h | h
    · left
      cases hsp : splitText chunk_size chunk_overlap d.page_content with
      | nil => exact absurd hsp (splitText_ne_nil _ _ _)
      | cons t ts => simp [hsp, h]
    · right
      simpa [split_documents] using ih h

/-- Filtering with an empty ignore list keeps every file. -/
lemma filter_nil_ignored (l : List String) :
    l.filter (fun p => !(([] : List String).contains p)) = l := by
  induction l with
  | nil => rfl
  | cons x xs ih => simp [List.filter, ih, List.contains]

/-- When every candidate is in the ignore list, filtering removes all
of them. -/
lemma filter_all_ignored (l ign : List String)
    (h : ∀ x ∈ l, ign.contains x = true) :
    l.filter (fun p => !(ign.contains p)) = [] := by
  induction l with
  | nil => rfl
  | cons x xs ih =>
    have hx := h x (by simp)
    simp only [List.filter, hx, Bool.not_true]
    exact ih (fun y hy => h y (by simp [hy]))

/-- A path that contains no dot has no characters after a last dot. -/
lemma afterLastDot_eq_none (l : List Char) (h : '.' ∉ l) :
    afterLastDot l = none := by
  induction l with
  | nil => rfl
  | cons c cs ih =>
    rw [List.mem_cons, not_or] at h
    have hc : ¬ c = '.' := fun hc => h.1 hc.symm
    unfold afterLastDot
    rw [ih h.2, if_neg hc]

/-! ## Claim theorems -/

/-- C6 (counterexample): a persist directory with the index
subdirectory, both collection and embedding artifact files, and exactly
3 persisted `.bin`/`.pkl` artifacts satisfies the claim's validity
condition ("at least 3"), yet `does_vectorstore_exist` returns `false`:
the claimed if-and-only-if fails. -/
theorem C6_counterexample :
    vectorstore_exists_spec ⟨true, true, true, ["a.bin", "b.bin", "c.pkl"]⟩ ∧
    does_vectorstore_exist ⟨true, true, true, ["a.bin", "b.bin", "c.pkl"]⟩ = false := by
  refine ⟨⟨rfl, rfl, rfl, ?_⟩, rfl⟩
  decide

/-- C6 (amended): the vector-index existence check returns true if and
only if the directory contains the index subdirectory, both required
collection and embedding artifact files, and strictly more than 3 (at
least 4) persisted index artifact files (`.bin` or `.pkl`); otherwise
the index is treated as absent or corrupt and a fresh index is built. -/
theorem C6_vectorstore_exists_iff (d : PersistDir) :
    does_vectorstore_exist d = true ↔
      (d.hasIndexDir = true ∧ d.hasCollections = true ∧ d.hasEmbeddings = true ∧
       4 ≤ (d.indexFiles.filter isIndexArtifact).length) := by
  rcases d with ⟨hi, hc, he, files⟩
  unfold does_vectorstore_exist
  cases hi <;> cases hc <;> cases he <;> simp
  omega

/-- C7 (counterexample): with a single candidate file that is also in
the ignore list, the filtered input set is empty and `process_documents`
terminates the process via `exit(0)` rather than returning an empty
result: the claim's "not a process termination" fails. -/
theorem C7_counterexample :
    process_documents (fun _ _ => Except.ok ["x"]) ["a.txt"] ["a.txt"] =
      ProcOutcome.exited 0 ∧
    (ProcOutcome.exited 0 : ProcOutcome (List Document)) ≠
      ProcOutcome.ok ([] : List Document) := by
  exact ⟨rfl, by decide⟩

/-- C7 (amended): for every batch run whose input file set is empty
after filtering out ignored files, `process_documents` prints an
informational message and terminates the process with `exit(0)` (exit
code 0): the caller never receives a returned result, empty or
otherwise. -/
theorem C7_empty_input_exits (loadFn : LoadFn) (allFiles ignored : List String)
    (h : allFiles.filter (fun p => !(ignored.contains p)) = []) :
    process_documents loadFn allFiles ignored = ProcOutcome.exited 0 := by
  unfold process_documents load_documents
  rw [h]
  rfl

/-- C7 (witness): instantiates the amended claim at a concrete run
whose only candidate file is ignored. -/
theorem C7_witness :
    process_documents (fun _ _ => Except.ok ["y"]) ["b.txt"] ["b.txt"] =
      ProcOutcome.exited 0 :=
  C7_empty_input_exits (fun _ _ => Except.ok ["y"]) ["b.txt"] ["b.txt"] (by rfl)

/-- C8: a path whose extension has no registered loader fails with the
unsupported-extension error; a path whose extension is registered is
handled by the loader mapped to that extension, and when that loader
extracts at least one unit the operation returns exactly one
document — the first extracted unit — stamped with the source path. -/
theorem C8_loader_selection (loadFn : LoadFn) (path : String) :
    (lookupLoader (pyExt path) = none →
      load_single_document loadFn path =
        Except.error (IngestError.UnsupportedExtension (pyExt path))) ∧
    (∀ (L : LoaderName) (c : String) (rest : List String),
      lookupLoader (pyExt path) = some L → loadFn L path = Except.ok (c :: rest) →
      load_single_document loadFn path = Except.ok ⟨c, path⟩) := by
  constructor
  · intro h
    unfold load_single_document
    rw [h]
  · intro L c rest hL hf
    unfold load_single_document
    rw [hL]
    dsimp only
    rw [hf]

/-- C8 (witness): a `.pdf` path is handled by `PDFMinerLoader` and
yields the first extracted unit; applied at a concrete path. -/
theorem C8_witness :
    load_single_document (fun _ _ => Except.ok ["hello", "world"]) "doc.pdf" =
      Except.ok ⟨"hello", "doc.pdf"⟩ :=
  (C8_loader_selection (fun _ _ => Except.ok ["hello", "world"]) "doc.pdf").2
    .PDFMinerLoader "hello" ["world"] (by rfl) (by rfl)

/-- C9: chunking is deterministic — two runs of the chunker on the same
text with the same `chunk_size`/`chunk_overlap` parameters yield
identical chunk boundaries. The chunker is a pure function of the text
and the two parameters, so equal inputs give equal chunk lists. -/
theorem C9_chunker_deterministic (cs co : Nat) (t₁ t₂ : String) (h : t₁ = t₂) :
    splitText cs co t₁ = splitText cs co t₂ := by
  rw [h]

/-- C9 (witness): two runs on a concrete text at the source's default
parameters coincide. -/
theorem C9_witness :
    splitText 500 50 "hello world" = splitText 500 50 "hello world" :=
  C9_chunker_deterministic 500 50 "hello world" "hello world" rfl

/-- C10 (counterexample): the path `"csv"` contains no dot at all, yet
`load_single_document` does not fail: Python's `rsplit` returns the
whole path, the computed extension is `".csv"`, which is registered,
and the CSV loader is selected. -/
theorem C10_counterexample :
    ("csv".data.contains '.') = false ∧
    load_single_document (fun _ _ => Except.ok ["x"]) "csv" =
      Except.ok ⟨"x", "csv"⟩ := by
  exact ⟨by decide, rfl⟩

/-- C10 (amended): loader selection matches the suffix after the last
dot literally and case-sensitively against the registered lower-case
extensions, so a case-differing extension such as ".PDF" is not
registered and fails; but a path with no dot at all gets the whole path
as its suffix, so its computed extension is "." prepended to the entire
path, and it fails only when that string is unregistered — a file named
exactly like a registered extension without its dot (e.g. "csv")
selects the corresponding loader. -/
theorem C10_literal_extension_match (loadFn : LoadFn) (path : String) :
    (path.data.contains '.' = false → pyExt path = String.mk ('.' :: path.data)) ∧
    (lookupLoader (pyExt path) = none →
      load_single_document loadFn path =
        Except.error (IngestError.UnsupportedExtension (pyExt path))) ∧
    lookupLoader ".PDF" = none := by
  refine ⟨?_, ?_, by rfl⟩
  · intro h
    unfold pyExt
    rw [afterLastDot_eq_none]
    intro hmem
    have : "".data.contains '.' = false ∨ True := Or.inr trivial
    have helem : path.data.contains '.' = true := List.elem_eq_true_of_mem hmem
    rw [helem] at h
    exact absurd h (by simp)
  · intro h
    unfold load_single_document
    rw [h]

/-- C10 (witness): instantiates the amended claim at the dotless path
"report" (extension ".report", unregistered, so loading fails) under a
loader behaviour that would succeed if ever consulted. -/
theorem C10_witness :
    pyExt "report" = String.mk ('.' :: "report".data) ∧
    load_single_document (fun _ _ => Except.ok ["x"]) "report" =
      Except.error (IngestError.UnsupportedExtension ".report") := by
  obtain ⟨h1, h2, _⟩ := C10_literal_extension_match (fun _ _ => Except.ok ["x"]) "report"
  exact ⟨h1 (by decide), h2 (by rfl)⟩

/-- C2 (counterexample): a batch of 2 non-ignored files of which one
fails to load does not return 1 loaded document with a recorded
failure — `load_documents` propagates the loader's exception and the
whole batch aborts with that error. -/
theorem C2_counterexample :
    load_documents
        (fun _ p => if p == "b.txt" then Except.error "boom" else Except.ok ["hello"])
        ["a.txt", "b.txt"] [] =
      Except.error (IngestError.LoadFailure "b.txt" "boom") ∧
    load_documents
        (fun _ p => if p == "b.txt" then Except.error "boom" else Except.ok ["hello"])
        ["a.txt", "b.txt"] [] ≠
      Except.ok [⟨"hello", "a.txt"⟩] := by
  refine ⟨rfl, ?_⟩
  intro h
  rw [show load_documents
      (fun _ p => if p == "b.txt" then Except.error "boom" else Except.ok ["hello"])
      ["a.txt", "b.txt"] [] =
      Except.error (IngestError.LoadFailure "b.txt" "boom") from rfl] at h
  exact absurd h (by simp)

/-- C2 (amended): for every batch in which some non-ignored file fails
to load, the batch loading operation aborts as a whole: the failing
file's exception propagates out of the worker-pool iteration and
`load_documents` raises instead of returning the other files'
documents; no per-file failure is recorded. -/
theorem C2_failure_aborts_batch (loadFn : LoadFn) (files ignored : List String)
    (f : String) (e : IngestError)
    (hmem : f ∈ files.filter (fun p => !(ignored.contains p)))
    (hfail : load_single_document loadFn f = .error e) :
    ∃ e', load_documents loadFn files ignored = Except.error e' := by
  unfold load_documents
  exact loadAll_error_of_mem loadFn _ f e hmem hfail

/-- C2 (witness): instantiates the amended claim at a concrete batch of
two files whose second file fails to load. -/
theorem C2_witness :
    ∃ e', load_documents
        (fun _ p => if p == "d.txt" then Except.error "bad" else Except.ok ["ok"])
        ["c.txt", "d.txt"] [] = Except.error e' :=
  C2_failure_aborts_batch
    (fun _ p => if p == "d.txt" then Except.error "bad" else Except.ok ["ok"])
    ["c.txt", "d.txt"] [] "d.txt" (IngestError.LoadFailure "d.txt" "bad")
    (by decide) (by rfl)

/-- C3: for every checker action whose target is APPROVED or REJECTED
on a found document, the metadata update of the `DocumentRecord` is
committed before the file-system effect is attempted: the effect trace
is exactly the record update followed by the ingestion/OCR dispatch
(APPROVED) or the quarantined-file deletion (REJECTED). -/
theorem C3_update_precedes_fs_effect (dispatchFn : DispatchFn) (st : ServerState)
    (req : CheckerIn) (verifier now : Nat) (d : DocumentRecord)
    (hfound : st.docs.find? (fun x => x.id == req.id) = some d)
    (h : req.status = MakerCheckerStatus.APPROVED ∨
         req.status = MakerCheckerStatus.REJECTED) :
    (verify_documents dispatchFn st req verifier now).2.1 =
      [Effect.recordUpdate req.id req.status,
       if req.status = MakerCheckerStatus.REJECTED then Effect.fileDelete d.filename
       else dispatchEffect d] := by
  unfold verify_documents
  rw [hfound]
  dsimp only
  rcases h with h | h <;> rw [h] <;> dsimp only <;> split <;> rfl

/-- C3 (witness): instantiates the claim at a concrete APPROVED action
on a pending document whose quarantined file exists. -/
theorem C3_witness :
    (verify_documents (fun _ => Except.ok ())
        ⟨[⟨1, "f.pdf", 1, MakerCheckerStatus.PENDING, true, none, none⟩], ["f.pdf"]⟩
        ⟨1, MakerCheckerStatus.APPROVED, true⟩ 7 11).2.1 =
      [Effect.recordUpdate 1 MakerCheckerStatus.APPROVED,
       Effect.ingestDispatch "f.pdf"] := by
  have h := C3_update_precedes_fs_effect (fun _ => Except.ok ())
    ⟨[⟨1, "f.pdf", 1, MakerCheckerStatus.PENDING, true, none, none⟩], ["f.pdf"]⟩
    ⟨1, MakerCheckerStatus.APPROVED, true⟩ 7 11
    ⟨1, "f.pdf", 1, MakerCheckerStatus.PENDING, true, none, none⟩
    (by rfl) (Or.inl rfl)
  rw [h]
  rfl

/-- C4: a checker action whose requested target status is neither
APPROVED nor REJECTED fails with the `InvalidTransition` error (the
400 "Cannot change status to PENDING!") and performs no side effect:
the state is unchanged — the `DocumentRecord` is untouched and the
quarantined file neither ingested nor deleted — and the effect trace
is empty. -/
theorem C4_invalid_transition (dispatchFn : DispatchFn) (st : ServerState)
    (req : CheckerIn) (verifier now : Nat) (d : DocumentRecord)
    (hfound : st.docs.find? (fun x => x.id == req.id) = some d)
    (hA : req.status ≠ MakerCheckerStatus.APPROVED)
    (hR : req.status ≠ MakerCheckerStatus.REJECTED) :
    verify_documents dispatchFn st req verifier now =
      (st, [], Except.error VerifyError.InvalidTransition) := by
  unfold verify_documents
  rw [hfound]
  dsimp only
  cases hs : req.status with
  | PENDING => rfl
  | APPROVED => exact absurd hs hA
  | REJECTED => exact absurd hs hR

/-- C4 (witness): instantiates the claim at a concrete request that
re-targets PENDING on a pending document. -/
theorem C4_witness :
    verify_documents (fun _ => Except.ok ())
        ⟨[⟨1, "f.pdf", 1, MakerCheckerStatus.PENDING, true, none, none⟩], ["f.pdf"]⟩
        ⟨1, MakerCheckerStatus.PENDING, false⟩ 7 11 =
      (⟨[⟨1, "f.pdf", 1, MakerCheckerStatus.PENDING, true, none, none⟩], ["f.pdf"]⟩,
       [], Except.error VerifyError.InvalidTransition) :=
  C4_invalid_transition (fun _ => Except.ok ())
    ⟨[⟨1, "f.pdf", 1, MakerCheckerStatus.PENDING, true, none, none⟩], ["f.pdf"]⟩
    ⟨1, MakerCheckerStatus.PENDING, false⟩ 7 11
    ⟨1, "f.pdf", 1, MakerCheckerStatus.PENDING, true, none, none⟩
    (by rfl) (by decide) (by decide)

/-- C5 (counterexample): re-approving an already-APPROVED (terminal)
document whose quarantined file is missing does fail, but not without
side effect: the `DocumentRecord` is updated (new verifier and
timestamp) before the file-system step raises, so the resulting state
differs from the initial one — the claim's "the DocumentRecord is not
updated" is false. -/
theorem C5_counterexample :
    (verify_documents (fun _ => Except.ok ())
        ⟨[⟨1, "f.pdf", 1, MakerCheckerStatus.APPROVED, true, some 9, some 9⟩], []⟩
        ⟨1, MakerCheckerStatus.APPROVED, true⟩ 7 11).2.2 =
      Except.error VerifyError.InternalError ∧
    (verify_documents (fun _ => Except.ok ())
        ⟨[⟨1, "f.pdf", 1, MakerCheckerStatus.APPROVED, true, some 9, some 9⟩], []⟩
        ⟨1, MakerCheckerStatus.APPROVED, true⟩ 7 11).1 ≠
      ⟨[⟨1, "f.pdf", 1, MakerCheckerStatus.APPROVED, true, some 9, some 9⟩], []⟩ := by
  exact ⟨rfl, by decide⟩

/-- C5 (amended): an approval action on an already-terminal document
succeeds only if the quarantined file still exists — when the file
exists the outcome is that of the dispatched ingestion/OCR step, which
may itself fail; when the file is missing the action fails — with the
generic internal error raised by the downstream file-system step, not
a dedicated `ArtifactMissing` error — but only after the
`DocumentRecord` update has already been committed: the metadata side
effect is performed, not skipped. -/
theorem C5_missing_artifact_after_update (dispatchFn : DispatchFn) (st : ServerState)
    (req : CheckerIn) (verifier now : Nat) (d : DocumentRecord)
    (hfound : st.docs.find? (fun x => x.id == req.id) = some d)
    (_hterm : d.status ≠ MakerCheckerStatus.PENDING)
    (hA : req.status = MakerCheckerStatus.APPROVED) :
    ((verify_documents dispatchFn st req verifier now).2.2 = Except.ok () →
      st.unchecked.contains d.filename = true) ∧
    (st.unchecked.contains d.filename = true →
      (verify_documents dispatchFn st req verifier now).2.2 =
        dispatchFn (dispatchEffect d)) ∧
    (st.unchecked.contains d.filename = false →
      (verify_documents dispatchFn st req verifier now).2.2 =
        Except.error VerifyError.InternalError ∧
      (verify_documents dispatchFn st req verifier now).1.docs =
        st.docs.map (fun x => if x.id == req.id
          then applyChecker x MakerCheckerStatus.APPROVED req.is_enabled verifier now
          else x)) := by
  unfold verify_documents
  rw [hfound, hA]
  dsimp only
  cases hc : st.unchecked.contains d.filename with
  | true => simp
  | false => simp

/-- C5 (witness): instantiates the amended claim at a concrete
re-approval of a terminal document with a missing quarantined file,
under an external dispatch that would succeed if it were ever reached:
the action errors and the record is nevertheless updated. -/
theorem C5_witness :
    (verify_documents (fun _ => Except.ok ())
        ⟨[⟨2, "g.pdf", 1, MakerCheckerStatus.APPROVED, true, some 5, some 5⟩], []⟩
        ⟨2, MakerCheckerStatus.APPROVED, false⟩ 8 12).2.2 =
      Except.error VerifyError.InternalError ∧
    (verify_documents (fun _ => Except.ok ())
        ⟨[⟨2, "g.pdf", 1, MakerCheckerStatus.APPROVED, true, some 5, some 5⟩], []⟩
        ⟨2, MakerCheckerStatus.APPROVED, false⟩ 8 12).1.docs =
      [⟨2, "g.pdf", 1, MakerCheckerStatus.APPROVED, false, some 8, some 12⟩] := by
  have h := ((C5_missing_artifact_after_update (fun _ => Except.ok ())
    ⟨[⟨2, "g.pdf", 1, MakerCheckerStatus.APPROVED, true, some 5, some 5⟩], []⟩
    ⟨2, MakerCheckerStatus.APPROVED, false⟩ 8 12
    ⟨2, "g.pdf", 1, MakerCheckerStatus.APPROVED, true, some 5, some 5⟩
    (by rfl) (by decide) rfl).2).2 (by rfl)
  refine ⟨h.1, ?_⟩
  rw [h.2]
  rfl

/-- C1: re-ingestion is idempotent. When a first batch run builds the
index from a source directory (`main_fresh` returns normally), a
second run over the unchanged file set against that existing index
(`main_existing`) adds zero new records: the stored source paths form
the ignore list, every candidate file path is contained in it and is
filtered out before loading, and nothing is embedded or appended. -/
theorem C1_second_run_noop (loadFn : LoadFn) (allFiles : List String)
    (index1 : List Document)
    (h1 : main_fresh loadFn allFiles = (index1, ProcOutcome.ok ())) :
    allFiles.filter (fun p => !((index1.map Document.source).contains p)) = [] ∧
    (main_existing loadFn allFiles index1).fst = index1 := by
  unfold main_fresh at h1
  cases hp : process_documents loadFn allFiles [] with
  | exited c => rw [hp] at h1; exact absurd h1 (by simp)
  | failed e => rw [hp] at h1; exact absurd h1 (by simp)
  | ok texts =>
    rw [hp] at h1
    have htexts : texts = index1 := by
      have := congrArg Prod.fst h1
      simpa using this
    subst htexts
    unfold process_documents load_documents at hp
    rw [filter_nil_ignored] at hp
    cases hl : loadAll loadFn allFiles with
    | error e => rw [hl] at hp; exact absurd hp (by simp)
    | ok docs =>
      rw [hl] at hp
      dsimp only at hp
      cases hde : docs.isEmpty with
      | true => rw [hde] at hp; exact absurd hp (by simp)
      | false =>
        rw [hde] at hp
        have hsplit : split_documents docs = texts := by simpa using hp
        have hsrc : docs.map Document.source = allFiles :=
          loadAll_sources loadFn allFiles docs hl
        have hmem : ∀ f ∈ allFiles, (texts.map Document.source).contains f = true := by
          intro f hf
          have hin : f ∈ docs.map Document.source := hsrc ▸ hf
          have h2 := mem_split_sources docs f hin
          rw [hsplit] at h2
          exact List.elem_eq_true_of_mem h2
        have hfil : allFiles.filter
            (fun p => !((texts.map Document.source).contains p)) = [] :=
          filter_all_ignored allFiles _ hmem
        refine ⟨hfil, ?_⟩
        unfold main_existing process_documents load_documents
        rw [hfil]
        rfl

/-- C1 (witness): a concrete first run over one text file builds a
one-record index; the second run over the same file leaves the index
unchanged. -/
theorem C1_witness :
    (main_existing (fun _ _ => Except.ok ["hello"]) ["a.txt"]
        [⟨"hello", "a.txt"⟩]).fst = [⟨"hello", "a.txt"⟩] :=
  (C1_second_run_noop (fun _ _ => Except.ok ["hello"]) ["a.txt"]
    [⟨"hello", "a.txt"⟩] (by rfl)).2

end PrivateGPT
